import Mathlib

/-!
Shallow embedding of the asset-resolution subsystem of the Seiko watch
storefront (src/app/core/assets.py, class SeikoAssetManager), together with
the string and hashing primitives it calls from the Python standard library:
UTF-8 encoding of str.encode(), hashlib.md5 (full compression function),
hexdigest parsing by int(s, 16), urllib.parse.quote, str.lower, str.replace
and str.title.  Python dicts appear as association lists in insertion order;
Python int is Int where sign matters (section counts) and Nat where the
source value is provably non-negative (seeds, byte values).
-/

namespace SeikoAssets

/-- UTF-8 encoding of one character, as Python str.encode() produces for it. -/
def utf8EncodeChar (c : Char) : List Nat :=
  let n := c.toNat
  if n < 128 then [n]
  else if n < 2048 then [192 + n / 64, 128 + n % 64]
  else if n < 65536 then [224 + n / 4096, 128 + (n / 64) % 64, 128 + n % 64]
  else [240 + n / 262144, 128 + (n / 4096) % 64, 128 + (n / 64) % 64, 128 + n % 64]

/-- UTF-8 byte sequence of a string: the model of Python str.encode(). -/
def utf8Encode (s : String) : List Nat :=
  (s.toList.map utf8EncodeChar).flatten

/-- Truncation to an unsigned 32-bit value, the implicit word size of MD5. -/
def mask32 (n : Nat) : Nat := n % 4294967296

/-- 32-bit left rotation. -/
def rotl32 (x n : Nat) : Nat :=
  mask32 (x <<< n) ||| (mask32 x >>> (32 - n))

/-- 32-bit bitwise complement. -/
def not32 (x : Nat) : Nat := 4294967295 - mask32 x

/-- MD5 per-round sine-derived additive constants. -/
def md5K : List Nat :=
  [3614090360, 3905402710, 606105819, 3250441966, 4118548399, 1200080426,
   2821735955, 4249261313, 1770035416, 2336552879, 4294925233, 2304563134,
   1804603682, 4254626195, 2792965006, 1236535329, 4129170786, 3225465664,
   643717713, 3921069994, 3593408605, 38016083, 3634488961, 3889429448,
   568446438, 3275163606, 4107603335, 1163531501, 2850285829, 4243563512,
   1735328473, 2368359562, 4294588738, 2272392833, 1839030562, 4259657740,
   2763975236, 1272893353, 4139469664, 3200236656, 681279174, 3936430074,
   3572445317, 76029189, 3654602809, 3873151461, 530742520, 3299628645,
   4096336452, 1126891415, 2878612391, 4237533241, 1700485571, 2399980690,
   4293915773, 2240044497, 1873313359, 4264355552, 2734768916, 1309151649,
   4149444226, 3174756917, 718787259, 3951481745]

/-- MD5 per-round left-rotation amounts. -/
def md5S : List Nat :=
  [7, 12, 17, 22, 7, 12, 17, 22, 7, 12, 17, 22, 7, 12, 17, 22,
   5, 9, 14, 20, 5, 9, 14, 20, 5, 9, 14, 20, 5, 9, 14, 20,
   4, 11, 16, 23, 4, 11, 16, 23, 4, 11, 16, 23, 4, 11, 16, 23,
   6, 10, 15, 21, 6, 10, 15, 21, 6, 10, 15, 21, 6, 10, 15, 21]

/-- State of the MD5 compression function: the four 32-bit chaining words. -/
structure Md5State where
  a : Nat
  b : Nat
  c : Nat
  d : Nat
deriving Repr, DecidableEq

/-- The nonlinear mixing value and message-word index of MD5 round i. -/
def md5Mix (st : Md5State) (i : Nat) : Nat × Nat :=
  if i < 16 then ((st.b &&& st.c) ||| (not32 st.b &&& st.d), i)
  else if i < 32 then ((st.d &&& st.b) ||| (not32 st.d &&& st.c), (5 * i + 1) % 16)
  else if i < 48 then (st.b ^^^ st.c ^^^ st.d, (3 * i + 5) % 16)
  else (st.c ^^^ (st.b ||| not32 st.d), (7 * i) % 16)

/-- One MD5 round applied to the state, given the 16 message words. -/
def md5Round (m : List Nat) (st : Md5State) (i : Nat) : Md5State :=
  let fg := md5Mix st i
  let f := mask32 (fg.1 + st.a + md5K.getD i 0 + m.getD fg.2 0)
  { a := st.d, b := mask32 (st.b + rotl32 f (md5S.getD i 0)), c := st.b, d := st.c }

/-- MD5 compression of one 16-word block into the chaining state. -/
def md5Block (st : Md5State) (m : List Nat) : Md5State :=
  let r := (List.range 64).foldl (md5Round m) st
  { a := mask32 (st.a + r.a), b := mask32 (st.b + r.b),
    c := mask32 (st.c + r.c), d := mask32 (st.d + r.d) }

/-- Little-endian decoding of four bytes into one 32-bit word. -/
def wordOfBytesLE (bs : List Nat) : Nat :=
  bs.getD 0 0 + 256 * bs.getD 1 0 + 65536 * bs.getD 2 0 + 16777216 * bs.getD 3 0

/-- The 16 little-endian message words of a 64-byte chunk. -/
def chunkWords (chunk : List Nat) : List Nat :=
  (List.range 16).map (fun j => wordOfBytesLE ((chunk.drop (4 * j)).take 4))

/-- Split a byte list into 64-byte chunks; fuel-driven so it reduces in the
kernel (the fuel is always taken at least length / 64 + 1). -/
def chunks64 : Nat → List Nat → List (List Nat)
  | 0, _ => []
  | _, [] => []
  | fuel + 1, l => l.take 64 :: chunks64 fuel (l.drop 64)

/-- Little-endian encoding of a word into k bytes. -/
def bytesLE : Nat → Nat → List Nat
  | 0, _ => []
  | k + 1, w => w % 256 :: bytesLE k (w / 256)

/-- MD5 padding: 0x80, zeros to 56 mod 64, then the 64-bit LE bit length. -/
def md5Pad (msg : List Nat) : List Nat :=
  msg ++ [128] ++ List.replicate ((119 - msg.length % 64) % 64) 0
      ++ bytesLE 8 ((8 * msg.length) % 18446744073709551616)

/-- The initial MD5 chaining state. -/
def md5Init : Md5State :=
  { a := 1732584193, b := 4023233417, c := 2562383102, d := 271733878 }

/-- The padded message split into its 64-byte blocks. -/
def md5Chunks (msg : List Nat) : List (List Nat) :=
  chunks64 ((md5Pad msg).length / 64 + 1) (md5Pad msg)

/-- The final chaining state after compressing every block. -/
def md5Final (msg : List Nat) : Md5State :=
  ((md5Chunks msg).map chunkWords).foldl md5Block md5Init

/-- The 16-byte MD5 digest of a byte message, as hashlib.md5(...).digest():
the four state words serialized little-endian in order a, b, c, d. -/
def md5Bytes (msg : List Nat) : List Nat :=
  bytesLE 4 (md5Final msg).a ++ (bytesLE 4 (md5Final msg).b ++
    (bytesLE 4 (md5Final msg).c ++ bytesLE 4 (md5Final msg).d))

/-- Lowercase hexadecimal character of a value below 16, as hexdigest emits. -/
def hexChar (n : Nat) : Char :=
  if n < 10 then Char.ofNat (48 + n) else Char.ofNat (87 + n)

/-- The 32 hexadecimal characters of hashlib.md5(...).hexdigest(). -/
def md5HexChars (msg : List Nat) : List Char :=
  ((md5Bytes msg).map (fun b => [hexChar (b / 16), hexChar (b % 16)])).flatten

/-- Numeric value of one hexadecimal character, as int(s, 16) assigns. -/
def hexVal (c : Char) : Nat :=
  if c.toNat ≤ 57 then c.toNat - 48
  else if c.toNat ≤ 70 then c.toNat - 55
  else c.toNat - 87

/-- Base-16 parse of a character list: the model of Python int(s, 16) on the
hex-digit strings the asset manager feeds it. -/
def intHex (cs : List Char) : Nat :=
  cs.foldl (fun acc c => 16 * acc + hexVal c) 0

/-- The seed formula shared by all three construction operations:
int(hashlib.md5(key.encode()).hexdigest()[:8], 16) % 10000. -/
def seedOfKey (key : String) : Nat :=
  intHex ((md5HexChars (utf8Encode key)).take 8) % 10000

/-- Model of Python str.lower for the ASCII range; the repository only feeds
it ASCII product names, and every claim using it on a variable name treats
the result opaquely. -/
def pyLower (s : String) : String :=
  String.mk (s.toList.map Char.toLower)

/-- Single-character replacement, the model of str.replace(old, new) for the
one-character patterns the source uses. -/
def replaceChar (s : String) (old new : Char) : String :=
  String.mk (s.toList.map (fun c => if c = old then new else c))

/-- Whether a character is cased for the purposes of str.title, restricted to
the ASCII range the repository feeds it. -/
def isCased (c : Char) : Bool :=
  (65 ≤ c.toNat && c.toNat ≤ 90) || (97 ≤ c.toNat && c.toNat ≤ 122)

/-- Helper of pyTitle: prev records whether the previous character was cased. -/
def pyTitleAux : Bool → List Char → List Char
  | _, [] => []
  | prev, c :: cs =>
      if isCased c then
        (if prev then Char.toLower c else Char.toUpper c) :: pyTitleAux true cs
      else
        c :: pyTitleAux false cs

/-- Model of Python str.title for ASCII: first cased character of each run is
uppercased, the rest lowercased. -/
def pyTitle (s : String) : String :=
  String.mk (pyTitleAux false s.toList)

/-- Uppercase hexadecimal character of a value below 16, as quote emits. -/
def hexCharUpper (n : Nat) : Char :=
  if n < 10 then Char.ofNat (48 + n) else Char.ofNat (55 + n)

/-- Whether a byte survives urllib.parse.quote unescaped: ASCII letters and
digits, underscore, period, hyphen, tilde, and the default safe character
slash. -/
def quoteSafeByte (b : Nat) : Bool :=
  (65 ≤ b && b ≤ 90) || (97 ≤ b && b ≤ 122) || (48 ≤ b && b ≤ 57) ||
  b == 95 || b == 46 || b == 45 || b == 126 || b == 47

/-- Model of urllib.parse.quote with the default safe set: UTF-8 encode, keep
safe bytes, percent-encode the rest with uppercase hex. -/
def quote (s : String) : String :=
  String.mk (((utf8Encode s).map (fun b =>
    if quoteSafeByte b then [Char.ofNat b]
    else ['%', hexCharUpper (b / 16), hexCharUpper (b % 16)])).flatten)

/-- A Python dict with string keys, kept in insertion order. -/
abbrev PyDict (α : Type) := List (String × α)

/-- Key lookup in an embedded Python dict. -/
def dfind {α : Type} (d : PyDict α) (k : String) : Option α :=
  (d.find? (fun p => p.1 == k)).map (fun p => p.2)

/-- An AssetRecord: the dict of five string fields each operation returns. -/
abbrev AssetRecord := PyDict String

/-- SEIKO_WATCH_CATEGORIES: the class-level primary keyword table. -/
def SEIKO_WATCH_CATEGORIES : List (String × List String) :=
  [("hero",
    ["seiko+watch+luxury", "luxury+timepiece", "premium+watch",
     "seiko+automatic", "watch+collection", "luxury+wristwatch"]),
   ("products",
    ["seiko+watch+face", "watch+detail", "timepiece+close",
     "luxury+watch+band", "seiko+movement", "watch+craftsmanship"]),
   ("lifestyle",
    ["businessman+watch", "luxury+lifestyle", "professional+timepiece",
     "watch+wrist", "elegant+watch", "premium+accessories"]),
   ("collections",
    ["seiko+prospex", "seiko+presage", "seiko+astron",
     "watch+collection+display", "luxury+watch+showcase", "timepiece+gallery"]),
   ("craftsmanship",
    ["watch+mechanism", "seiko+movement", "watchmaking+craft",
     "precision+engineering", "japanese+craftsmanship", "horological+art"]),
   ("trust",
    ["luxury+service", "watch+warranty", "premium+support",
     "professional+consultation", "authorized+dealer", "watch+expertise"])]

/-- FALLBACK_CATEGORIES: the class-level fallback keyword table. -/
def FALLBACK_CATEGORIES : List (String × List String) :=
  [("hero", ["luxury", "premium", "elegant", "sophisticated"]),
   ("products", ["product", "detail", "quality", "craftsmanship"]),
   ("lifestyle", ["lifestyle", "professional", "business", "elegant"]),
   ("collections", ["collection", "gallery", "showcase", "display"]),
   ("craftsmanship", ["precision", "engineering", "craft", "art"]),
   ("trust", ["service", "quality", "professional", "trust"])]

/-- The fallback keyword list of a section; every section iterated by
get_seiko_assets is a key of FALLBACK_CATEGORIES, so the default branch is
unreachable there. -/
def fallbackFor (section_ : String) : List String :=
  ((dfind FALLBACK_CATEGORIES section_).getD [])

/-- self.base_unsplash_url. -/
def base_unsplash_url : String := "https://source.unsplash.com"

/-- self.base_picsum_url. -/
def base_picsum_url : String := "https://picsum.photos"

/-- One loop-body iteration of get_seiko_assets: the record appended for
index i of a section with the given keyword lists. -/
def sectionRecord (section_ : String) (keywords fallbacks : List String) (i : Nat) :
    AssetRecord :=
  let keyword := keywords.getD (i % keywords.length) ""
  let fallback_keyword := fallbacks.getD (i % fallbacks.length) ""
  let seed := seedOfKey ("seiko_" ++ section_ ++ "_" ++ toString i)
  [("primary", base_unsplash_url ++ "/1200x800/?" ++ quote keyword ++ "&sig=" ++ toString seed),
   ("secondary", base_unsplash_url ++ "/1200x800/?" ++ quote fallback_keyword ++ "&sig=" ++ toString seed),
   ("fallback", base_picsum_url ++ "/1200/800?random=" ++ toString seed),
   ("alt", "Professional Seiko " ++ replaceChar keyword '+' ' ' ++ " imagery"),
   ("title", "Seiko " ++ pyTitle section_ ++ " - " ++ pyTitle (replaceChar keyword '+' ' '))]

/-- SeikoAssetManager.get_seiko_assets: section_count is a Python int, so it
is embedded as Int; range of a non-positive bound is empty, which Int.toNat
mirrors. -/
def get_seiko_assets (section_count : Int) : PyDict (List AssetRecord) :=
  SEIKO_WATCH_CATEGORIES.map (fun p =>
    (p.1, (List.range (min section_count (p.2.length : Int)).toNat).map
      (sectionRecord p.1 p.2 (fallbackFor p.1))))

/-- The search_terms list selected by get_product_image from the already
cleaned name and the image type. -/
def productSearchTerms (clean_name image_type : String) : List String :=
  if image_type == "main" then
    ["seiko+" ++ clean_name, clean_name ++ "+watch", "luxury+watch"]
  else if image_type == "detail" then
    [clean_name ++ "+detail", "watch+mechanism", "watch+face"]
  else if image_type == "lifestyle" then
    [clean_name ++ "+lifestyle", "watch+wrist", "luxury+lifestyle"]
  else
    ["seiko+watch", "luxury+timepiece"]

/-- product_name.lower().replace(" ", "+"). -/
def cleanName (product_name : String) : String :=
  replaceChar (pyLower product_name) ' ' '+'

/-- SeikoAssetManager.get_product_image. -/
def get_product_image (product_name : String) (image_type : String) : AssetRecord :=
  let clean_name := cleanName product_name
  let seed := seedOfKey (clean_name ++ "_" ++ image_type)
  let search_terms := productSearchTerms clean_name image_type
  [("primary", base_unsplash_url ++ "/800x800/?" ++ quote (search_terms.getD 0 "") ++ "&sig=" ++ toString seed),
   ("secondary", base_unsplash_url ++ "/800x800/?" ++ quote (search_terms.getD 1 "") ++ "&sig=" ++ toString seed),
   ("fallback", base_picsum_url ++ "/800/800?random=" ++ toString seed),
   ("alt", product_name ++ " - Professional watch photography"),
   ("title", product_name)]

/-- The collection-to-phrase table of get_hero_banner. -/
def heroSearchTable : PyDict String :=
  [("luxury", "seiko+luxury+watch+collection"),
   ("sport", "seiko+prospex+sport+watch"),
   ("dress", "seiko+presage+dress+watch"),
   ("solar", "seiko+astron+solar+watch")]

/-- search_terms.get(collection, "seiko+watch+luxury"). -/
def heroSearchTerm (collection : String) : String :=
  (dfind heroSearchTable collection).getD "seiko+watch+luxury"

/-- SeikoAssetManager.get_hero_banner. -/
def get_hero_banner (collection : String) : AssetRecord :=
  let seed := seedOfKey ("hero_" ++ collection)
  let search_term := heroSearchTerm collection
  [("primary", base_unsplash_url ++ "/1920x600/?" ++ quote search_term ++ "&sig=" ++ toString seed),
   ("secondary", base_unsplash_url ++ "/1920x600/?luxury+timepiece&sig=" ++ toString seed),
   ("fallback", base_picsum_url ++ "/1920/600?random=" ++ toString seed),
   ("alt", "Seiko " ++ pyTitle collection ++ " Collection - Premium timepieces"),
   ("title", "Seiko " ++ pyTitle collection ++ " Collection")]

/-- Outcome of the HEAD request issued by validate_image_url: either a
response carrying a status code, or one of the raising failure modes that the
bare except absorbs. -/
inductive HeadResult : Type where
  | response (status : Int) : HeadResult
  | timeout : HeadResult
  | connectionError : HeadResult
  | otherException : HeadResult
deriving DecidableEq

/-- SeikoAssetManager.validate_image_url, with the network effect of
requests.head supplied as an oracle mapping a URL and a timeout to an
outcome; the source always passes timeout 5. -/
def validate_image_url (net : String → Nat → HeadResult) (url : String) : Bool :=
  match net url 5 with
  | HeadResult.response status => status == 200
  | HeadResult.timeout => false
  | HeadResult.connectionError => false
  | HeadResult.otherException => false

/-- Whether an embedded record carries all five fields of an AssetRecord. -/
def hasAllFields (d : AssetRecord) : Bool :=
  (dfind d "primary").isSome && (dfind d "secondary").isSome &&
  (dfind d "fallback").isSome && (dfind d "alt").isSome && (dfind d "title").isSome

/-- Big-endian value of a byte list, as the spec reads a digest last
truncation: first byte most significant. -/
def beVal (bs : List Nat) : Nat :=
  bs.foldl (fun acc b => 256 * acc + b) 0

/-- The seed formula as the spec words it: first 4 bytes of the 128-bit
digest read as a big-endian unsigned integer, reduced modulo 10000; stated
for comparison with seedOfKey, which follows the source hex-substring
route. -/
def specSeedBE (key : String) : Nat :=
  beVal ((md5Bytes (utf8Encode key)).take 4) % 10000

/-- Substring scan: does the needle occur contiguously in the haystack. -/
def strContainsAux (needle : List Char) : List Char → Bool
  | [] => needle.isEmpty
  | c :: cs => needle.isPrefixOf (c :: cs) || strContainsAux needle cs

/-- String containment test used to state URL-shape properties. -/
def containsStr (hay needle : String) : Bool :=
  strContainsAux needle.toList hay.toList

/-- A record whose three URLs all end in query parameters carrying one
common seed value. -/
def sameSeed (d : AssetRecord) : Prop :=
  ∃ (s : Nat) (q1 q2 q3 : String),
    dfind d "primary" = some (q1 ++ ("&sig=" ++ toString s)) ∧
    dfind d "secondary" = some (q2 ++ ("&sig=" ++ toString s)) ∧
    dfind d "fallback" = some (q3 ++ ("?random=" ++ toString s))

/-- The keyword list of the hero section, shared by concrete witnesses. -/
def heroKeywords : List String :=
  ["seiko+watch+luxury", "luxury+timepiece", "premium+watch",
   "seiko+automatic", "watch+collection", "luxury+wristwatch"]

set_option maxRecDepth 1000000

theorem dfind_sectionRecord_primary (s : String) (ks fb : List String) (i : Nat) :
    dfind (sectionRecord s ks fb i) "primary" =
      some (base_unsplash_url ++ "/1200x800/?" ++ quote (ks.getD (i % ks.length) "") ++
        "&sig=" ++ toString (seedOfKey ("seiko_" ++ s ++ "_" ++ toString i))) := rfl

theorem dfind_sectionRecord_secondary (s : String) (ks fb : List String) (i : Nat) :
    dfind (sectionRecord s ks fb i) "secondary" =
      some (base_unsplash_url ++ "/1200x800/?" ++ quote (fb.getD (i % fb.length) "") ++
        "&sig=" ++ toString (seedOfKey ("seiko_" ++ s ++ "_" ++ toString i))) := rfl

theorem dfind_sectionRecord_fallback (s : String) (ks fb : List String) (i : Nat) :
    dfind (sectionRecord s ks fb i) "fallback" =
      some (base_picsum_url ++ "/1200/800?random=" ++
        toString (seedOfKey ("seiko_" ++ s ++ "_" ++ toString i))) := rfl

theorem mem_get_seiko_assets {c : Int} {sec : String} {recs : List AssetRecord}
    (hs : dfind (get_seiko_assets c) sec = some recs) :
    ∃ p ∈ SEIKO_WATCH_CATEGORIES,
      recs = (List.range (min c (p.2.length : Int)).toNat).map
        (sectionRecord p.1 p.2 (fallbackFor p.1)) := by
  unfold dfind at hs
  obtain ⟨q, hq, hq2⟩ := Option.map_eq_some'.mp hs
  have hqmem := List.mem_of_find?_eq_some hq
  unfold get_seiko_assets at hqmem
  obtain ⟨p, hp, hpq⟩ := List.mem_map.mp hqmem
  refine ⟨p, hp, ?_⟩
  rw [← hq2, ← hpq]

theorem sectionRecord_of_mem {c : Int} {sec : String} {recs : List AssetRecord}
    {r : AssetRecord} (hs : dfind (get_seiko_assets c) sec = some recs) (hr : r ∈ recs) :
    ∃ s ks i, r = sectionRecord s ks (fallbackFor s) i := by
  obtain ⟨p, hp, hrecs⟩ := mem_get_seiko_assets hs
  subst hrecs
  obtain ⟨i, hi, hri⟩ := List.mem_map.mp hr
  exact ⟨p.1, p.2, i, hri.symm⟩

/-- C1: every input to the three URL-construction operations produces a
normal result (the embedded operations are total Lean functions, mirroring
the absence of any raising branch in the source), and every AssetRecord any
of them produces carries all five fields primary, secondary, fallback, alt
and title as present string values. -/
theorem urlConstruction_total_allFields
    (product_name image_type collection : String) (section_count : Int)
    (sec : String) (recs : List AssetRecord) (r : AssetRecord)
    (hs : dfind (get_seiko_assets section_count) sec = some recs) (hr : r ∈ recs) :
    hasAllFields (get_product_image product_name image_type) = true ∧
    hasAllFields (get_hero_banner collection) = true ∧
    hasAllFields r = true := by
  refine ⟨rfl, rfl, ?_⟩
  obtain ⟨s, ks, i, hri⟩ := sectionRecord_of_mem hs hr
  rw [hri]
  rfl

/-- Witness for C1 at concrete inputs, with the section record drawn from
get_seiko_assets 1 at section hero. -/
theorem urlConstruction_total_allFields_witness :
    hasAllFields (get_product_image "Seiko 5 Sports" "main") = true ∧
    hasAllFields (get_hero_banner "luxury") = true ∧
    hasAllFields (sectionRecord "hero" heroKeywords (fallbackFor "hero") 0) = true :=
  urlConstruction_total_allFields "Seiko 5 Sports" "main" "luxury" 1 "hero"
    [sectionRecord "hero" heroKeywords (fallbackFor "hero") 0]
    (sectionRecord "hero" heroKeywords (fallbackFor "hero") 0)
    rfl (List.mem_singleton.mpr rfl)

/-- C2: get_product_image is deterministic — two calls with the same product
name and image type yield identical AssetRecords, including the seed-derived
query parameters, because the embedded operation is a pure function of its
arguments. -/
theorem get_product_image_deterministic (n1 t1 n2 t2 : String)
    (hn : n1 = n2) (ht : t1 = t2) :
    get_product_image n1 t1 = get_product_image n2 t2 := by
  rw [hn, ht]

/-- Witness for C2 at the fixture of the spec. -/
theorem get_product_image_deterministic_witness :
    get_product_image "Seiko 5 Sports" "main" = get_product_image "Seiko 5 Sports" "main" :=
  get_product_image_deterministic "Seiko 5 Sports" "main" "Seiko 5 Sports" "main" rfl rfl

/-- C6: for every collection key the secondary URL of get_hero_banner embeds
the constant phrase luxury+timepiece as its search term; the key influences
only the seed parameter of that URL, while the primary URL is the one whose
search term varies with the key. -/
theorem hero_banner_secondary_constant_phrase (collection : String) :
    dfind (get_hero_banner collection) "secondary" =
      some (base_unsplash_url ++ "/1920x600/?luxury+timepiece&sig=" ++
        toString (seedOfKey ("hero_" ++ collection))) := rfl

/-- C8: validate_image_url returns true exactly when the HEAD request issued
with timeout 5 completes with status 200; a timeout, connection error, other
exception, or non-success status all map to false, and the embedded
operation is total, so no exception escapes. -/
theorem validate_image_url_iff_status200 (net : String → Nat → HeadResult) (url : String) :
    validate_image_url net url = true ↔ net url 5 = HeadResult.response 200 := by
  unfold validate_image_url
  cases h : net url 5 <;> simp

/-- C10: a non-positive section count makes every per-section range empty, so
get_seiko_assets still returns all six sections, each mapped to an empty
record list. -/
theorem get_seiko_assets_nonpositive_count_empty (section_count : Int)
    (hc : section_count ≤ 0) :
    get_seiko_assets section_count =
      [("hero", []), ("products", []), ("lifestyle", []),
       ("collections", []), ("craftsmanship", []), ("trust", [])] := by
  have h0 : (min section_count ((6 : Nat) : Int)).toNat = 0 := by omega
  simp [get_seiko_assets, SEIKO_WATCH_CATEGORIES, h0]
  omega

theorem section_assets_spec (c : Int) (hc : 0 < c) (sec : String)
    (ks : List String) (recs : List AssetRecord)
    (hrecs : recs = (List.range (min c (ks.length : Int)).toNat).map
      (sectionRecord sec ks (fallbackFor sec)))
    (hfind : dfind (get_seiko_assets c) sec = some recs) :
    ∃ recs2, dfind (get_seiko_assets c) sec = some recs2 ∧
      recs2.length = min c.toNat ks.length ∧
      ∀ i (hi : i < recs2.length),
        recs2[i] = sectionRecord sec ks (fallbackFor sec) i ∧
        dfind recs2[i] "primary" =
          some (base_unsplash_url ++ "/1200x800/?" ++
            quote (ks.getD (i % ks.length) "") ++ "&sig=" ++
            toString (seedOfKey ("seiko_" ++ sec ++ "_" ++ toString i))) ∧
        dfind recs2[i] "secondary" =
          some (base_unsplash_url ++ "/1200x800/?" ++
            quote ((fallbackFor sec).getD (i % (fallbackFor sec).length) "") ++ "&sig=" ++
            toString (seedOfKey ("seiko_" ++ sec ++ "_" ++ toString i))) := by
  subst hrecs
  refine ⟨_, hfind, ?_, ?_⟩
  · simp only [List.length_map, List.length_range]
    omega
  · intro i hi
    simp only [List.length_map, List.length_range] at hi
    simp only [List.getElem_map, List.getElem_range]
    exact ⟨trivial, dfind_sectionRecord_primary _ _ _ _, dfind_sectionRecord_secondary _ _ _ _⟩

/-- C3: for every positive section count and every section of the table,
get_seiko_assets yields exactly min(section_count, number of keywords)
records, and the record at index i takes its keyword at index i mod the
keyword-list length and its fallback keyword at index i mod the
fallback-list length; at section count 20 a 6-keyword section therefore
yields 6 records. -/
theorem get_seiko_assets_length_and_modulo (section_count : Int)
    (hc : 0 < section_count) (sec : String) (ks : List String)
    (hsec : (sec, ks) ∈ SEIKO_WATCH_CATEGORIES) :
    ∃ recs, dfind (get_seiko_assets section_count) sec = some recs ∧
      recs.length = min section_count.toNat ks.length ∧
      ∀ i (hi : i < recs.length),
        recs[i] = sectionRecord sec ks (fallbackFor sec) i ∧
        dfind recs[i] "primary" =
          some (base_unsplash_url ++ "/1200x800/?" ++
            quote (ks.getD (i % ks.length) "") ++ "&sig=" ++
            toString (seedOfKey ("seiko_" ++ sec ++ "_" ++ toString i))) ∧
        dfind recs[i] "secondary" =
          some (base_unsplash_url ++ "/1200x800/?" ++
            quote ((fallbackFor sec).getD (i % (fallbackFor sec).length) "") ++ "&sig=" ++
            toString (seedOfKey ("seiko_" ++ sec ++ "_" ++ toString i))) := by
  simp only [SEIKO_WATCH_CATEGORIES, List.mem_cons, List.not_mem_nil, or_false,
    Prod.mk.injEq] at hsec
  rcases hsec with ⟨h1, h2⟩ | ⟨h1, h2⟩ | ⟨h1, h2⟩ | ⟨h1, h2⟩ | ⟨h1, h2⟩ | ⟨h1, h2⟩ <;>
    subst h1 <;> subst h2 <;>
    exact section_assets_spec section_count hc _ _ _ rfl rfl

/-- Witness for C3 at section count 20, section hero: exactly 6 records. -/
theorem get_seiko_assets_length_and_modulo_witness :
    ∃ recs, dfind (get_seiko_assets 20) "hero" = some recs ∧
      recs.length = min (20 : Int).toNat heroKeywords.length ∧
      ∀ i (hi : i < recs.length),
        recs[i] = sectionRecord "hero" heroKeywords (fallbackFor "hero") i ∧
        dfind recs[i] "primary" =
          some (base_unsplash_url ++ "/1200x800/?" ++
            quote (heroKeywords.getD (i % heroKeywords.length) "") ++ "&sig=" ++
            toString (seedOfKey ("seiko_" ++ "hero" ++ "_" ++ toString i))) ∧
        dfind recs[i] "secondary" =
          some (base_unsplash_url ++ "/1200x800/?" ++
            quote ((fallbackFor "hero").getD (i % (fallbackFor "hero").length) "") ++ "&sig=" ++
            toString (seedOfKey ("seiko_" ++ "hero" ++ "_" ++ toString i))) :=
  get_seiko_assets_length_and_modulo 20 (by decide) "hero" heroKeywords (by decide)

/-- Witness for C10 at section count -3. -/
theorem get_seiko_assets_nonpositive_count_empty_witness :
    get_seiko_assets (-3) =
      [("hero", []), ("products", []), ("lifestyle", []),
       ("collections", []), ("craftsmanship", []), ("trust", [])] :=
  get_seiko_assets_nonpositive_count_empty (-3) (by decide)

theorem dfind_get_product_image_primary (n t : String) :
    dfind (get_product_image n t) "primary" =
      some (base_unsplash_url ++ "/800x800/?" ++
        quote ((productSearchTerms (cleanName n) t).getD 0 "") ++ "&sig=" ++
        toString (seedOfKey (cleanName n ++ "_" ++ t))) := rfl

theorem dfind_get_product_image_secondary (n t : String) :
    dfind (get_product_image n t) "secondary" =
      some (base_unsplash_url ++ "/800x800/?" ++
        quote ((productSearchTerms (cleanName n) t).getD 1 "") ++ "&sig=" ++
        toString (seedOfKey (cleanName n ++ "_" ++ t))) := rfl

theorem dfind_get_product_image_fallback (n t : String) :
    dfind (get_product_image n t) "fallback" =
      some (base_picsum_url ++ "/800/800?random=" ++
        toString (seedOfKey (cleanName n ++ "_" ++ t))) := rfl

theorem dfind_get_hero_banner_primary (c : String) :
    dfind (get_hero_banner c) "primary" =
      some (base_unsplash_url ++ "/1920x600/?" ++ quote (heroSearchTerm c) ++ "&sig=" ++
        toString (seedOfKey ("hero_" ++ c))) := rfl

theorem dfind_get_hero_banner_secondary2 (c : String) :
    dfind (get_hero_banner c) "secondary" =
      some (base_unsplash_url ++ "/1920x600/?luxury+timepiece&sig=" ++
        toString (seedOfKey ("hero_" ++ c))) := rfl

theorem dfind_get_hero_banner_fallback (c : String) :
    dfind (get_hero_banner c) "fallback" =
      some (base_picsum_url ++ "/1920/600?random=" ++
        toString (seedOfKey ("hero_" ++ c))) := rfl

theorem split_append (a b c d e : String) (h : b = c ++ d) :
    a ++ b ++ e = (a ++ c) ++ (d ++ e) := by
  subst h
  simp [String.append_assoc]

/-- C7: an image type outside main, detail and lifestyle makes
get_product_image fall back to the generic search-term pair, and a
collection key outside luxury, sport, dress and solar makes get_hero_banner
fall back to the generic phrase; both still return a full record, never an
error. -/
theorem unknown_type_and_collection_fallbacks (n t c : String)
    (h1 : t ≠ "main") (h2 : t ≠ "detail") (h3 : t ≠ "lifestyle")
    (h4 : c ∉ ["luxury", "sport", "dress", "solar"]) :
    productSearchTerms (cleanName n) t = ["seiko+watch", "luxury+timepiece"] ∧
    dfind (get_product_image n t) "primary" =
      some (base_unsplash_url ++ "/800x800/?" ++ quote "seiko+watch" ++ "&sig=" ++
        toString (seedOfKey (cleanName n ++ "_" ++ t))) ∧
    dfind (get_product_image n t) "secondary" =
      some (base_unsplash_url ++ "/800x800/?" ++ quote "luxury+timepiece" ++ "&sig=" ++
        toString (seedOfKey (cleanName n ++ "_" ++ t))) ∧
    heroSearchTerm c = "seiko+watch+luxury" ∧
    dfind (get_hero_banner c) "primary" =
      some (base_unsplash_url ++ "/1920x600/?" ++ quote "seiko+watch+luxury" ++ "&sig=" ++
        toString (seedOfKey ("hero_" ++ c))) := by
  have hterms : productSearchTerms (cleanName n) t = ["seiko+watch", "luxury+timepiece"] := by
    simp [productSearchTerms, h1, h2, h3]
  have hc1 : c ≠ "luxury" := fun h => h4 (by simp [h])
  have hc2 : c ≠ "sport" := fun h => h4 (by simp [h])
  have hc3 : c ≠ "dress" := fun h => h4 (by simp [h])
  have hc5 : c ≠ "solar" := fun h => h4 (by simp [h])
  have hb1 : ("luxury" == c) = false := beq_eq_false_iff_ne.mpr hc1.symm
  have hb2 : ("sport" == c) = false := beq_eq_false_iff_ne.mpr hc2.symm
  have hb3 : ("dress" == c) = false := beq_eq_false_iff_ne.mpr hc3.symm
  have hb5 : ("solar" == c) = false := beq_eq_false_iff_ne.mpr hc5.symm
  have hterm : heroSearchTerm c = "seiko+watch+luxury" := by
    simp [heroSearchTerm, dfind, heroSearchTable, List.find?, hb1, hb2, hb3, hb5]
  refine ⟨hterms, ?_, ?_, hterm, ?_⟩
  · rw [dfind_get_product_image_primary, hterms]
    rfl
  · rw [dfind_get_product_image_secondary, hterms]
    rfl
  · rw [dfind_get_hero_banner_primary, hterm]

/-- Witness for C7 at the spec fixtures: image type panorama and collection
key unknown-collection. -/
theorem unknown_type_and_collection_fallbacks_witness :
    productSearchTerms (cleanName "Grand Seiko SBGA211") "panorama" =
      ["seiko+watch", "luxury+timepiece"] ∧
    dfind (get_product_image "Grand Seiko SBGA211" "panorama") "primary" =
      some (base_unsplash_url ++ "/800x800/?" ++ quote "seiko+watch" ++ "&sig=" ++
        toString (seedOfKey (cleanName "Grand Seiko SBGA211" ++ "_" ++ "panorama"))) ∧
    dfind (get_product_image "Grand Seiko SBGA211" "panorama") "secondary" =
      some (base_unsplash_url ++ "/800x800/?" ++ quote "luxury+timepiece" ++ "&sig=" ++
        toString (seedOfKey (cleanName "Grand Seiko SBGA211" ++ "_" ++ "panorama"))) ∧
    heroSearchTerm "unknown-collection" = "seiko+watch+luxury" ∧
    dfind (get_hero_banner "unknown-collection") "primary" =
      some (base_unsplash_url ++ "/1920x600/?" ++ quote "seiko+watch+luxury" ++ "&sig=" ++
        toString (seedOfKey ("hero_" ++ "unknown-collection"))) :=
  unknown_type_and_collection_fallbacks "Grand Seiko SBGA211" "panorama" "unknown-collection"
    (by decide) (by decide) (by decide) (by decide)

/-- C9: each record of any of the three construction operations carries one
common seed: the primary and secondary URLs end in a sig parameter, and the
fallback URL in a random parameter, all with the same value. -/
theorem record_urls_share_seed (n t c : String) (cnt : Int) (sec : String)
    (recs : List AssetRecord) (r : AssetRecord)
    (hs : dfind (get_seiko_assets cnt) sec = some recs) (hr : r ∈ recs) :
    sameSeed (get_product_image n t) ∧ sameSeed (get_hero_banner c) ∧ sameSeed r := by
  refine ⟨?_, ?_, ?_⟩
  · refine ⟨seedOfKey (cleanName n ++ "_" ++ t),
      base_unsplash_url ++ "/800x800/?" ++ quote ((productSearchTerms (cleanName n) t).getD 0 ""),
      base_unsplash_url ++ "/800x800/?" ++ quote ((productSearchTerms (cleanName n) t).getD 1 ""),
      base_picsum_url ++ "/800/800", ?_, ?_, ?_⟩
    · rw [dfind_get_product_image_primary]
      exact congrArg some (String.append_assoc _ _ _)
    · rw [dfind_get_product_image_secondary]
      exact congrArg some (String.append_assoc _ _ _)
    · rw [dfind_get_product_image_fallback]
      exact congrArg some (split_append _ _ _ _ _ rfl)
  · refine ⟨seedOfKey ("hero_" ++ c),
      base_unsplash_url ++ "/1920x600/?" ++ quote (heroSearchTerm c),
      base_unsplash_url ++ "/1920x600/?luxury+timepiece",
      base_picsum_url ++ "/1920/600", ?_, ?_, ?_⟩
    · rw [dfind_get_hero_banner_primary]
      exact congrArg some (String.append_assoc _ _ _)
    · rw [dfind_get_hero_banner_secondary2]
      exact congrArg some (String.append_assoc _ _ _)
    · rw [dfind_get_hero_banner_fallback]
      exact congrArg some (split_append _ _ _ _ _ rfl)
  · obtain ⟨s, ks, i, hri⟩ := sectionRecord_of_mem hs hr
    subst hri
    refine ⟨seedOfKey ("seiko_" ++ s ++ "_" ++ toString i),
      base_unsplash_url ++ "/1200x800/?" ++ quote (ks.getD (i % ks.length) ""),
      base_unsplash_url ++ "/1200x800/?" ++
        quote ((fallbackFor s).getD (i % (fallbackFor s).length) ""),
      base_picsum_url ++ "/1200/800", ?_, ?_, ?_⟩
    · rw [dfind_sectionRecord_primary]
      exact congrArg some (String.append_assoc _ _ _)
    · rw [dfind_sectionRecord_secondary]
      exact congrArg some (String.append_assoc _ _ _)
    · rw [dfind_sectionRecord_fallback]
      exact congrArg some (split_append _ _ _ _ _ rfl)

/-- Witness for C9 at concrete inputs, with the section record drawn from
get_seiko_assets at section count 1, section hero. -/
theorem record_urls_share_seed_witness :
    sameSeed (get_product_image "Seiko Presage" "detail") ∧
    sameSeed (get_hero_banner "sport") ∧
    sameSeed (sectionRecord "hero" heroKeywords (fallbackFor "hero") 0) :=
  record_urls_share_seed "Seiko Presage" "detail" "sport" 1 "hero"
    [sectionRecord "hero" heroKeywords (fallbackFor "hero") 0]
    (sectionRecord "hero" heroKeywords (fallbackFor "hero") 0)
    rfl (List.mem_singleton.mpr rfl)

theorem hexVal_hexChar (n : Nat) (h : n < 16) : hexVal (hexChar n) = n := by
  interval_cases n <;> decide

theorem intHex_hexPairs_four (e1 e2 e3 e4 : Nat)
    (h1 : e1 < 256) (h2 : e2 < 256) (h3 : e3 < 256) (h4 : e4 < 256) :
    intHex [hexChar (e1 / 16), hexChar (e1 % 16), hexChar (e2 / 16), hexChar (e2 % 16),
            hexChar (e3 / 16), hexChar (e3 % 16), hexChar (e4 / 16), hexChar (e4 % 16)]
      = ((e1 * 256 + e2) * 256 + e3) * 256 + e4 := by
  simp only [intHex, List.foldl]
  rw [hexVal_hexChar (e1 / 16) (by omega), hexVal_hexChar (e1 % 16) (by omega),
    hexVal_hexChar (e2 / 16) (by omega), hexVal_hexChar (e2 % 16) (by omega),
    hexVal_hexChar (e3 / 16) (by omega), hexVal_hexChar (e3 % 16) (by omega),
    hexVal_hexChar (e4 / 16) (by omega), hexVal_hexChar (e4 % 16) (by omega)]
  omega

theorem hex_take8 (a : Nat) (rest : List Nat) :
    intHex ((((bytesLE 4 a ++ rest).map
        (fun b => [hexChar (b / 16), hexChar (b % 16)])).flatten).take 8)
      = beVal ((bytesLE 4 a ++ rest).take 4) := by
  have htake : ((((bytesLE 4 a ++ rest).map
      (fun b => [hexChar (b / 16), hexChar (b % 16)])).flatten).take 8) =
      [hexChar (a % 256 / 16), hexChar (a % 256 % 16),
       hexChar (a / 256 % 256 / 16), hexChar (a / 256 % 256 % 16),
       hexChar (a / 256 / 256 % 256 / 16), hexChar (a / 256 / 256 % 256 % 16),
       hexChar (a / 256 / 256 / 256 % 256 / 16), hexChar (a / 256 / 256 / 256 % 256 % 16)] := rfl
  have htake4 : (bytesLE 4 a ++ rest).take 4 =
      [a % 256, a / 256 % 256, a / 256 / 256 % 256, a / 256 / 256 / 256 % 256] := rfl
  rw [htake, htake4,
    intHex_hexPairs_four (a % 256) (a / 256 % 256) (a / 256 / 256 % 256)
      (a / 256 / 256 / 256 % 256) (Nat.mod_lt _ (by norm_num)) (Nat.mod_lt _ (by norm_num))
      (Nat.mod_lt _ (by norm_num)) (Nat.mod_lt _ (by norm_num))]
  simp only [beVal, List.foldl]
  omega

theorem md5_seed_be (msg : List Nat) :
    intHex ((md5HexChars msg).take 8) = beVal ((md5Bytes msg).take 4) := by
  unfold md5HexChars md5Bytes
  exact hex_take8 (md5Final msg).a
    (bytesLE 4 (md5Final msg).b ++ (bytesLE 4 (md5Final msg).c ++ bytesLE 4 (md5Final msg).d))

/-- C4: for every composite key the derived seed lies below 10000 and equals
the first 4 bytes of the MD5 digest of the key read as a big-endian unsigned
integer, reduced modulo 10000; seedOfKey is the hex-substring route the
source takes and specSeedBE the byte formulation of the spec, and all three
construction operations call seedOfKey on their composite keys. -/
theorem seed_range_and_bigEndian_md5 (key : String) :
    seedOfKey key < 10000 ∧ seedOfKey key = specSeedBE key := by
  constructor
  · exact Nat.mod_lt _ (by norm_num)
  · unfold seedOfKey specSeedBE
    exact congrArg (· % 10000) (md5_seed_be (utf8Encode key))

/-- C5: the primary URL for product Seiko Prospex Solar Diver with image type
detail contains the URL-escaped form of the search term
seiko+prospex+solar+diver+detail, and that term is composed from the
normalized product name plus the +detail suffix. -/
theorem product_image_detail_contains_escaped_term :
    cleanName "Seiko Prospex Solar Diver" = "seiko+prospex+solar+diver" ∧
    (productSearchTerms (cleanName "Seiko Prospex Solar Diver") "detail").getD 0 "" =
      "seiko+prospex+solar+diver" ++ "+detail" ∧
    (dfind (get_product_image "Seiko Prospex Solar Diver" "detail") "primary").any
      (fun u => containsStr u (quote "seiko+prospex+solar+diver+detail")) = true :=
  ⟨by decide, by decide, by decide⟩

end SeikoAssets
